import Mathlib

/-!
Shallow embedding of the service worker in src/web/public/serviceworker.js.

The file contains one fetch-event listener and one helper function
requestOverNetwork.  Both interact with four asynchronous platform
primitives: caches.match, fetch, caches.open and cache.put.  We model one
run of the handler on a single intercepted event.  The platform's answers
to the asynchronous primitives are an oracle (the Env structure below); the
run is then deterministic, and we record

  * a trace of primitive events in the order the code reaches them
    (this captures the sequencing claims: which call is issued, when,
    and how many times),
  * the final value or rejection with which the promise passed to
    event.respondWith settles (Except reason (Option Response); ok none is
    the JavaScript value undefined, i.e. resolution with no response), and
  * the final state of the named cache stores.

JavaScript promise semantics used by the translation:
  * p.then(f).catch(g): if p rejects, f is skipped and g runs; if p
    fulfills, f runs, and g runs only if the promise f returned rejects.
    In the source, f returns networkFetch.catch(_ => cachedResponse),
    which never rejects (the catch handler just returns a value), so g
    runs exactly when caches.match itself rejects.
  * requestOverNetwork's own .catch logs and re-rejects with the same
    reason, so its rejection reason is propagated unchanged.
  * The fire-and-forget write caches.open("xpress-calc").then(cache =>
    cache.put(...)) is issued on fetch success; nothing awaits it.

A Response is modelled as a content string plus an object-identity tag:
Response.clone yields a fresh object (different tag) with equal content,
so storing and consuming the clone leaves the original readable.
-/

/-- A network response: its body content plus an object-identity tag.
Distinct tags model distinct JavaScript objects, so that the clone stored in
the cache is a different object from the response returned to the caller. -/
structure Response where
  content : String
  tag : Nat
deriving DecidableEq, Repr

/-- The response.clone() operation: a fresh object with equal content. -/
def Response.clone (r : Response) : Response :=
  { content := r.content, tag := r.tag + 1 }

/-- State of the platform cache: named store -> request key -> stored response. -/
def Stores := String → String → Option Response

/-- Writing one entry of one named store, all other entries untouched. -/
def Stores.update (s : Stores) (name key : String) (v : Response) : Stores :=
  fun n k => if n = name ∧ k = key then some v else s n k

instance {ε α : Type} [DecidableEq ε] [DecidableEq α] : DecidableEq (Except ε α)
  | .error a, .error b =>
      if h : a = b then isTrue (by rw [h]) else isFalse (by intro hc; cases hc; exact h rfl)
  | .error _, .ok _ => isFalse (by intro hc; cases hc)
  | .ok _, .error _ => isFalse (by intro hc; cases hc)
  | .ok a, .ok b =>
      if h : a = b then isTrue (by rw [h]) else isFalse (by intro hc; cases hc; exact h rfl)

/-- Primitive events of one handler run, in the order the code reaches them. -/
inductive Ev where
  | matchCall (key : String)
  | matchResolved (res : Except String (Option Response))
  | logError (msg : String)
  | fetchCall (key : String)
  | fetchResolved (res : Except String Response)
  | cacheOpenCall (name : String)
  | cachePut (name : String) (key : String) (val : Response)
deriving DecidableEq, Repr

/-- Whether an event is an invocation of the fetch primitive. -/
def Ev.isFetchCall : Ev → Bool
  | .fetchCall _ => true
  | _ => false

/-- Whether an event is the resolution of the caches.match lookup. -/
def Ev.isMatchResolved : Ev → Bool
  | .matchResolved _ => true
  | _ => false

/-- Whether an event is a console.error diagnostic entry. -/
def Ev.isLog : Ev → Bool
  | .logError _ => true
  | _ => false

/-- The platform oracle for one run: the request's identity, the outcome of
the caches.match lookup (error = the lookup primitive rejected; ok none = a
miss; ok (some v) = a hit), the outcome the fetch primitive would deliver,
whether caches.open resolves, whether cache.put succeeds, and the initial
cache state.  The handler reaches exactly one call of requestOverNetwork on
every control path (the then-callback and the catch-callback are mutually
exclusive), so a single fetch outcome suffices; the trace records every
fetch invocation the code makes. -/
structure Env where
  request : String
  matchResult : Except String (Option Response)
  fetchOutcome : Except String Response
  openOk : Bool
  putOk : Bool
  stores0 : Stores

/-- Result of one call of requestOverNetwork. -/
structure NetworkRun where
  trace : List Ev
  result : Except String Response
  stores : Stores

/-- Translation of requestOverNetwork(event): fetch the request; on success
clone the response, fire-and-forget open "xpress-calc" and put the clone
under the request's key, and return the original response; on failure log
and re-reject with the same reason. -/
def requestOverNetwork (request : String) (fetchOutcome : Except String Response)
    (openOk putOk : Bool) (stores : Stores) : NetworkRun :=
  match fetchOutcome with
  | .ok response =>
      let responseClone := Response.clone response
      if openOk then
        { trace := [.fetchCall request, .fetchResolved (.ok response),
                    .cacheOpenCall "xpress-calc",
                    .cachePut "xpress-calc" request responseClone],
          result := .ok response,
          stores := if putOk then stores.update "xpress-calc" request responseClone
                    else stores }
      else
        -- caches.open is called but rejects: no put is ever issued.
        { trace := [.fetchCall request, .fetchResolved (.ok response),
                    .cacheOpenCall "xpress-calc"],
          result := .ok response,
          stores := stores }
  | .error reason =>
      { trace := [.fetchCall request, .fetchResolved (.error reason),
                  .logError ("ServiceWorker fetch failed: " ++ reason)],
        result := .error reason,
        stores := stores }

/-- Result of one run of the fetch-event listener. -/
structure HandlerRun where
  trace : List Ev
  result : Except String (Option Response)
  stores : Stores

/-- Translation of the fetch-event listener.  The promise given to
event.respondWith is caches.match(request).then(then-callback).catch(catch-callback).
If the lookup fulfills with cachedResponse, the then-callback runs: it calls
requestOverNetwork and returns networkFetch.catch(_ => cachedResponse), so
the run settles with the network response on fetch success and with the
looked-up value (possibly undefined) on fetch failure, never rejecting.  If
the lookup rejects, the catch-callback runs: it logs and returns a fresh
requestOverNetwork call, propagating that call's outcome unchanged. -/
def handleFetchEvent (env : Env) : HandlerRun :=
  match env.matchResult with
  | .ok cachedResponse =>
      let net := requestOverNetwork env.request env.fetchOutcome env.openOk env.putOk env.stores0
      { trace := [.matchCall env.request, .matchResolved (.ok cachedResponse)] ++ net.trace,
        result := match net.result with
          | .ok response => .ok (some response)
          | .error _ => .ok cachedResponse,
        stores := net.stores }
  | .error reason =>
      let net := requestOverNetwork env.request env.fetchOutcome env.openOk env.putOk env.stores0
      { trace := [.matchCall env.request, .matchResolved (.error reason),
                  .logError ("ServiceWorker cache match failed: " ++ reason)] ++ net.trace,
        result := match net.result with
          | .ok response => .ok (some response)
          | .error e => .error e,
        stores := net.stores }

/-- An empty initial cache state. -/
def emptyStores : Stores := fun _ _ => none

/-- Whether a promise settled by resolution (as opposed to rejection). -/
def Except.isResolved {ε α : Type} : Except ε α → Bool
  | .ok _ => true
  | .error _ => false

/-- Concrete environment for claim C1: the fetch succeeds but the
fire-and-forget caches.open rejects, so no put is ever issued. -/
def envC1 : Env :=
  { request := "r", matchResult := Except.ok (some ⟨"v1", 0⟩),
    fetchOutcome := Except.ok ⟨"v2", 10⟩,
    openOk := false, putOk := true, stores0 := emptyStores }

/-- C1 counterexample: at envC1 the network fetch succeeds with response
⟨"v2", 10⟩ and the handler resolves with it, yet afterwards the cache store
"xpress-calc" holds nothing under the request's key, because the
fire-and-forget open/put chain failed.  So the claim's unconditional
"afterwards the cache store contains a value equal to r" is false. -/
theorem c1_counterexample :
    envC1.fetchOutcome = Except.ok ⟨"v2", 10⟩
    ∧ (handleFetchEvent envC1).result = Except.ok (some ⟨"v2", 10⟩)
    ∧ (handleFetchEvent envC1).stores "xpress-calc" envC1.request = none := by
  exact ⟨rfl, rfl, rfl⟩

/-- C1 amended: for every intercepted request event whose network fetch
succeeds with response r, the handler resolves with r (the network response
takes priority even when a cached entry exists), and, provided the
fire-and-forget cache write (the open/put chain) succeeds, the cache store
afterwards contains under that request's key a value equal to r at the time
of fetch (the stored clone, content-equal to r). -/
theorem c1_network_priority_and_cache_update (env : Env) (r : Response)
    (hf : env.fetchOutcome = Except.ok r) :
    (handleFetchEvent env).result = Except.ok (some r)
    ∧ (env.openOk = true → env.putOk = true →
        ∃ v, (handleFetchEvent env).stores "xpress-calc" env.request = some v
          ∧ v.content = r.content) := by
  constructor
  · cases hm : env.matchResult <;> cases ho : env.openOk <;>
      simp [handleFetchEvent, requestOverNetwork, hf, hm, ho]
  · intro ho hp
    cases hm : env.matchResult <;>
      simp [handleFetchEvent, requestOverNetwork, hf, hm, ho, hp, Stores.update,
            Response.clone]

/-- Concrete input for the C1 witness: a cached entry "v1" exists, the
network succeeds with "v2", and the write chain succeeds (Scenario C). -/
def envC1w : Env :=
  { request := "r", matchResult := Except.ok (some ⟨"v1", 0⟩),
    fetchOutcome := Except.ok ⟨"v2", 10⟩,
    openOk := true, putOk := true, stores0 := emptyStores }

/-- Witness for the amended C1 at envC1w. -/
theorem c1_witness :
    (handleFetchEvent envC1w).result = Except.ok (some ⟨"v2", 10⟩)
    ∧ ∃ v, (handleFetchEvent envC1w).stores "xpress-calc" envC1w.request = some v
        ∧ v.content = "v2" :=
  ⟨(c1_network_priority_and_cache_update envC1w ⟨"v2", 10⟩ rfl).1,
   (c1_network_priority_and_cache_update envC1w ⟨"v2", 10⟩ rfl).2 rfl rfl⟩

/-- C2: for every intercepted request event whose cache lookup resolves with
an existing cached response v and whose network fetch rejects, the handler
resolves with v. -/
theorem c2_cached_fallback (env : Env) (v : Response) (e : String)
    (hm : env.matchResult = Except.ok (some v))
    (hf : env.fetchOutcome = Except.error e) :
    (handleFetchEvent env).result = Except.ok (some v) := by
  simp [handleFetchEvent, requestOverNetwork, hm, hf]

/-- Concrete input for the C2 witness: cached "v1", network down (Scenario A). -/
def envC2 : Env :=
  { request := "r", matchResult := Except.ok (some ⟨"v1", 0⟩),
    fetchOutcome := Except.error "down",
    openOk := true, putOk := true, stores0 := emptyStores }

/-- Witness for C2 at envC2. -/
theorem c2_witness :
    (handleFetchEvent envC2).result = Except.ok (some ⟨"v1", 0⟩) :=
  c2_cached_fallback envC2 ⟨"v1", 0⟩ "down" rfl rfl

/-- Concrete environment for claim C3: a cache miss and a failing network. -/
def envC3 : Env :=
  { request := "r", matchResult := Except.ok none,
    fetchOutcome := Except.error "down",
    openOk := true, putOk := true, stores0 := emptyStores }

/-- C3 counterexample: at envC3 the lookup resolves with a miss and the
fetch rejects, yet the handler RESOLVES (with the absent value, JavaScript
undefined) rather than rejecting: the catch handler returning cachedResponse
turns the rejection into a fulfillment.  So the claim's "the handler's
response resolves to rejection" is false. -/
theorem c3_counterexample :
    envC3.matchResult = Except.ok none
    ∧ envC3.fetchOutcome = Except.error "down"
    ∧ (handleFetchEvent envC3).result = Except.ok none
    ∧ Except.isResolved (handleFetchEvent envC3).result = true := by
  exact ⟨rfl, rfl, rfl, rfl⟩

/-- C3 amended: for every intercepted request event whose cache lookup
resolves with no entry (a miss, not a lookup error) and whose network fetch
rejects, the handler resolves with the absent value (undefined) — no
response value is returned to the caller, but the promise fulfills rather
than rejecting. -/
theorem c3_miss_and_network_failure (env : Env) (e : String)
    (hm : env.matchResult = Except.ok none)
    (hf : env.fetchOutcome = Except.error e) :
    (handleFetchEvent env).result = Except.ok none := by
  simp [handleFetchEvent, requestOverNetwork, hm, hf]

/-- Concrete input for the witness of the amended C3. -/
def envC3w : Env :=
  { request := "q", matchResult := Except.ok none,
    fetchOutcome := Except.error "offline",
    openOk := true, putOk := true, stores0 := emptyStores }

/-- Witness for the amended C3 at envC3w. -/
theorem c3_witness :
    (handleFetchEvent envC3w).result = Except.ok none :=
  c3_miss_and_network_failure envC3w "offline" rfl rfl

/-- C5: the outcome of the fire-and-forget cache write (the open/put chain)
never affects the value or rejection with which the event's response
settles: runs differing only in the write outcome settle identically. -/
theorem c5_write_outcome_independence (env : Env) (o p o2 p2 : Bool) :
    (handleFetchEvent { env with openOk := o, putOk := p }).result
      = (handleFetchEvent { env with openOk := o2, putOk := p2 }).result := by
  cases hm : env.matchResult <;> cases hf : env.fetchOutcome <;>
    cases o <;> cases o2 <;>
    simp [handleFetchEvent, requestOverNetwork, hm, hf]

/-- C9: whenever the cache lookup resolves (hit or miss), the handler's
promise never rejects; in particular on a miss with a rejecting fetch it
resolves with the absent value; a rejection of the handler is possible only
when the cache lookup itself rejected. -/
theorem c9_rejection_only_on_lookup_error (env : Env) :
    (∀ c, env.matchResult = Except.ok c →
        ∃ v, (handleFetchEvent env).result = Except.ok v)
    ∧ (∀ e, env.matchResult = Except.ok none → env.fetchOutcome = Except.error e →
        (handleFetchEvent env).result = Except.ok none)
    ∧ (∀ e, (handleFetchEvent env).result = Except.error e →
        ∃ reason, env.matchResult = Except.error reason) := by
  refine ⟨?_, ?_, ?_⟩
  · intro c hm
    cases hf : env.fetchOutcome <;> cases ho : env.openOk <;>
      simp [handleFetchEvent, requestOverNetwork, hm, hf, ho]
  · intro e hm hf
    simp [handleFetchEvent, requestOverNetwork, hm, hf]
  · intro e hres
    cases hm : env.matchResult with
    | error reason => exact ⟨reason, rfl⟩
    | ok c =>
        exfalso
        cases hf : env.fetchOutcome <;> cases ho : env.openOk <;>
          simp [handleFetchEvent, requestOverNetwork, hm, hf, ho] at hres

/-- Concrete input for the C9 witness: miss plus failing network. -/
def envC9 : Env :=
  { request := "r", matchResult := Except.ok none,
    fetchOutcome := Except.error "down",
    openOk := false, putOk := false, stores0 := emptyStores }

/-- Witness for C9 at envC9. -/
theorem c9_witness :
    (handleFetchEvent envC9).result = Except.ok none :=
  (c9_rejection_only_on_lookup_error envC9).2.1 "down" rfl rfl

/-- C10: every cache write of a run targets only the store "xpress-calc"
and only the entry keyed by the event's request; every other entry of every
named store is exactly as in the initial state. -/
theorem c10_frame (env : Env) (name key : String)
    (h : name ≠ "xpress-calc" ∨ key ≠ env.request) :
    (handleFetchEvent env).stores name key = env.stores0 name key := by
  cases hm : env.matchResult <;> cases hf : env.fetchOutcome <;>
    cases ho : env.openOk <;> cases hp : env.putOk <;>
    simp [handleFetchEvent, requestOverNetwork, hm, hf, ho, hp, Stores.update] <;>
    rcases h with h | h <;> simp [h]

/-- Concrete input for the C10 witness: successful fetch and write. -/
def envC10 : Env :=
  { request := "r", matchResult := Except.ok none,
    fetchOutcome := Except.ok ⟨"v2", 4⟩,
    openOk := true, putOk := true, stores0 := emptyStores }

/-- Witness for C10 at envC10, at a store name other than "xpress-calc". -/
theorem c10_witness :
    (handleFetchEvent envC10).stores "other-store" "r"
      = envC10.stores0 "other-store" "r" :=
  c10_frame envC10 "other-store" "r" (Or.inl (by decide))

/-- C6: in requestOverNetwork, on a successful fetch (with the open/put
chain reachable, openOk) the value stored under the request's key is the
duplicate Response.clone r — a distinct object with equal content, so
reading it for caching leaves the original body readable — while the value
returned to the caller is the original response r itself. -/
theorem c6_clone_stored_original_returned (request : String) (stores : Stores)
    (putOk : Bool) (r : Response) :
    (requestOverNetwork request (Except.ok r) true putOk stores).result = Except.ok r
    ∧ Ev.cachePut "xpress-calc" request (Response.clone r)
        ∈ (requestOverNetwork request (Except.ok r) true putOk stores).trace
    ∧ Response.clone r ≠ r
    ∧ (Response.clone r).content = r.content
    ∧ (putOk = true →
        (requestOverNetwork request (Except.ok r) true putOk stores).stores
            "xpress-calc" request
          = some (Response.clone r)) := by
  refine ⟨rfl, ?_, ?_, rfl, ?_⟩
  · simp [requestOverNetwork]
  · intro h
    have : (Response.clone r).tag = r.tag := by rw [h]
    simp [Response.clone] at this
  · intro hp
    simp [requestOverNetwork, hp, Stores.update]

/-- Witness for C6 at a concrete request and response. -/
theorem c6_witness :
    (requestOverNetwork "r" (Except.ok ⟨"v2", 3⟩) true true emptyStores).result
      = Except.ok ⟨"v2", 3⟩
    ∧ (requestOverNetwork "r" (Except.ok ⟨"v2", 3⟩) true true emptyStores).stores
        "xpress-calc" "r" = some (Response.clone ⟨"v2", 3⟩) :=
  ⟨(c6_clone_stored_original_returned "r" emptyStores true ⟨"v2", 3⟩).1,
   (c6_clone_stored_original_returned "r" emptyStores true ⟨"v2", 3⟩).2.2.2.2 rfl⟩

/-- C4: for every intercepted request event whose cache lookup primitive
rejects, exactly one diagnostic entry is logged before the network fetch is
attempted, that fetch is the sole strategy (the only fetch invocation of the
run), and the handler's final outcome equals that network attempt's outcome
unchanged: its response on success, its rejection (same reason) on failure. -/
theorem c4_lookup_error_logs_once_then_network (env : Env) (reason : String)
    (hm : env.matchResult = Except.error reason) :
    ((handleFetchEvent env).trace.takeWhile (fun e => !(Ev.isFetchCall e))).filter
        Ev.isLog
      = [Ev.logError ("ServiceWorker cache match failed: " ++ reason)]
    ∧ ((handleFetchEvent env).trace.filter Ev.isFetchCall).length = 1
    ∧ (∀ r, env.fetchOutcome = Except.ok r →
        (handleFetchEvent env).result = Except.ok (some r))
    ∧ (∀ e, env.fetchOutcome = Except.error e →
        (handleFetchEvent env).result = Except.error e) := by
  refine ⟨?_, ?_, ?_, ?_⟩
  · cases hf : env.fetchOutcome <;> cases ho : env.openOk <;>
      simp [handleFetchEvent, requestOverNetwork, hm, hf, ho,
            Ev.isFetchCall, Ev.isLog]
  · cases hf : env.fetchOutcome <;> cases ho : env.openOk <;>
      simp [handleFetchEvent, requestOverNetwork, hm, hf, ho, Ev.isFetchCall]
  · intro r hf
    cases ho : env.openOk <;>
      simp [handleFetchEvent, requestOverNetwork, hm, hf, ho]
  · intro e hf
    simp [handleFetchEvent, requestOverNetwork, hm, hf]

/-- Concrete input for the C4 witness: the lookup rejects, the network
succeeds with "v3" (Scenario D). -/
def envC4 : Env :=
  { request := "r", matchResult := Except.error "boom",
    fetchOutcome := Except.ok ⟨"v3", 7⟩,
    openOk := true, putOk := true, stores0 := emptyStores }

/-- Witness for C4 at envC4. -/
theorem c4_witness :
    ((handleFetchEvent envC4).trace.filter Ev.isFetchCall).length = 1
    ∧ (handleFetchEvent envC4).result = Except.ok (some ⟨"v3", 7⟩) :=
  ⟨(c4_lookup_error_logs_once_then_network envC4 "boom" rfl).2.1,
   (c4_lookup_error_logs_once_then_network envC4 "boom" rfl).2.2.1 ⟨"v3", 7⟩ rfl⟩

/-- Concrete environment for claim C7: an ordinary run with a cache hit and
a successful fetch. -/
def envC7 : Env :=
  { request := "r", matchResult := Except.ok (some ⟨"v1", 0⟩),
    fetchOutcome := Except.ok ⟨"v2", 1⟩,
    openOk := true, putOk := true, stores0 := emptyStores }

/-- C7 counterexample: at envC7 the trace is matchCall, matchResolved,
fetchCall, ... — the lookup resolution (index 1) strictly precedes the first
fetch invocation (index 2), because the source only calls
requestOverNetwork inside the continuation of caches.match.  So the claim
that the network attempt is initiated before the lookup's outcome is known
is false: the code forces the sequencing lookup first, then network. -/
theorem c7_counterexample :
    (handleFetchEvent envC7).trace.findIdx Ev.isMatchResolved = 1
    ∧ (handleFetchEvent envC7).trace.findIdx Ev.isFetchCall = 2
    ∧ ¬((handleFetchEvent envC7).trace.findIdx Ev.isFetchCall
        < (handleFetchEvent envC7).trace.findIdx Ev.isMatchResolved) := by
  exact ⟨rfl, rfl, by decide⟩

/-- C7 amended: for every intercepted request event the network attempt is
initiated only after the outcome of the cache lookup is known: in every run
the lookup's resolution event strictly precedes the first fetch invocation,
since both the then-callback and the catch-callback that call
requestOverNetwork run only once caches.match has settled. -/
theorem c7_lookup_settles_before_network (env : Env) :
    (handleFetchEvent env).trace.findIdx Ev.isMatchResolved
      < (handleFetchEvent env).trace.findIdx Ev.isFetchCall := by
  cases hm : env.matchResult <;> cases hf : env.fetchOutcome <;>
    cases ho : env.openOk <;>
    simp [handleFetchEvent, requestOverNetwork, hm, hf, ho,
          Ev.isMatchResolved, Ev.isFetchCall, List.findIdx_cons]

/-- Concrete environment for claim C8: the cache lookup primitive rejects
and the network succeeds. -/
def envC8 : Env :=
  { request := "r", matchResult := Except.error "lookup-broken",
    fetchOutcome := Except.ok ⟨"v3", 2⟩,
    openOk := true, putOk := true, stores0 := emptyStores }

/-- C8 counterexample: at envC8 the lookup primitive rejects, and the whole
run contains exactly ONE fetch invocation, not two: the primary path's
fetch is never initiated, because requestOverNetwork is only called inside
the lookup's success continuation, which never runs when the lookup
rejects.  So the claim that two network fetches are issued is false. -/
theorem c8_counterexample :
    envC8.matchResult = Except.error "lookup-broken"
    ∧ ((handleFetchEvent envC8).trace.filter Ev.isFetchCall).length = 1 := by
  exact ⟨rfl, rfl⟩

/-- C8 amended: for every intercepted request event whose cache lookup
primitive rejects, the fallback path issues the only network fetch of that
event — there is no fetch already in flight from the primary path, since
that path's fetch is created inside the lookup's success continuation — so
exactly one network fetch is issued for that single event. -/
theorem c8_single_fetch_on_lookup_error (env : Env) (reason : String)
    (hm : env.matchResult = Except.error reason) :
    ((handleFetchEvent env).trace.filter Ev.isFetchCall).length = 1 := by
  cases hf : env.fetchOutcome <;> cases ho : env.openOk <;>
    simp [handleFetchEvent, requestOverNetwork, hm, hf, ho, Ev.isFetchCall]

/-- Concrete input for the C8 witness. -/
def envC8w : Env :=
  { request := "r", matchResult := Except.error "lookup-broken",
    fetchOutcome := Except.error "down",
    openOk := true, putOk := true, stores0 := emptyStores }

/-- Witness for the amended C8 at envC8w. -/
theorem c8_witness :
    ((handleFetchEvent envC8w).trace.filter Ev.isFetchCall).length = 1 :=
  c8_single_fetch_on_lookup_error envC8w "lookup-broken" rfl
